import Mathlib

/-!
Verification development for the petro-ip repository.

The repository computes initial-production (IP) metrics for wells from
monthly regulatory production reports and serves them over HTTP.

Embedding conventions:
* Machine floats are modelled as exact rationals.  The float NaN, used by
  the source as the marker for a value that is not available, is modelled
  by `Option ℚ` with `none` standing for NaN wherever NaN can occur (the
  sixteen IP fields and every value derived from them); NaN propagation
  through arithmetic is `Option.map`.
* A pandas dataframe holding one well is a `List MonthlyRecord` in row
  order; the two derived columns that `calculate_well_ip` assigns are the
  fields of `PreparedRecord`.
* `scipy.interpolate.interp1d(x, y, bounds_error=False)` with the default
  linear kind on sorted knots is `interp1d` below: piecewise-linear
  between adjacent knots, `none` (NaN fill value) strictly outside the
  knot range.
* Python `round(x, 1)` is `round1`: round half to even at one decimal.
* Python dict results are association lists `List (String × DVal)` in
  insertion order.
-/

/-- One row of the BCOGC monthly production csv for a single well, with the
columns used by the repository (`getdata.py` dtype table). -/
structure MonthlyRecord where
  wa_num : String
  uwi : String
  prod_period : Int
  gas_prod_vol : ℚ
  oil_prod_vol : ℚ
  water_prod_vol : ℚ
  cond_prod_vol : ℚ
  prod_days : ℚ
  gas_prod_cum : ℚ
  oil_prod_cum : ℚ
  water_prod_cum : ℚ
  cond_prod_cum : ℚ
deriving DecidableEq, Repr

/-- A row after `calculate_well_ip` has assigned the two derived columns
`Prod_days_cum` and `Total_prod_vol (m3)`. -/
structure PreparedRecord where
  row : MonthlyRecord
  prod_days_cum : ℚ
  total_prod_vol : ℚ
deriving DecidableEq, Repr

/-- The derived column `Total_prod_vol (m3)` for one row:
`Gas_prod_vol (e3m3) * 1000 + Oil_prod_vol (m3) + Water_prod_vol (m3)
+ Cond_prod_vol (m3)`. -/
def totalVol (r : MonthlyRecord) : ℚ :=
  r.gas_prod_vol * 1000 + r.oil_prod_vol + r.water_prod_vol + r.cond_prod_vol

/-- Running-sum helper for the `Prod_days_cum` column: `acc` is the sum of
the producing days of all earlier rows. -/
def prepareFrom (acc : ℚ) : List MonthlyRecord → List PreparedRecord
  | [] => []
  | r :: rs =>
    { row := r, prod_days_cum := acc + r.prod_days, total_prod_vol := totalVol r }
      :: prepareFrom (acc + r.prod_days) rs

/-- The series-preparation step of `calculate_well_ip`: assign
`Prod_days_cum = cumsum(Prod_days)` and the total-volume column. -/
def prepareSeries (df : List MonthlyRecord) : List PreparedRecord :=
  prepareFrom 0 df

/-- The `WellIP` dataclass: identity and cumulative fields plus sixteen IP
values.  Each IP field defaults to `none`, the model of the dataclass
default `float("nan")`. -/
structure WellIP where
  wa : String
  uwi : String
  first_prod_month : Int
  last_prod_month : Int
  cum_prod_gas_e6m3 : ℚ
  cum_prod_oil_e3m3 : ℚ
  cum_prod_cond_e3m3 : ℚ
  cum_prod_water_e3m3 : ℚ
  cum_prod_days : ℚ
  gas_ip_30_e3m3d : Option ℚ := none
  oil_ip_30_m3d : Option ℚ := none
  cond_ip_30_m3d : Option ℚ := none
  water_ip_30_m3d : Option ℚ := none
  gas_ip_90_e3m3d : Option ℚ := none
  oil_ip_90_m3d : Option ℚ := none
  cond_ip_90_m3d : Option ℚ := none
  water_ip_90_m3d : Option ℚ := none
  gas_ip_180_e3m3d : Option ℚ := none
  oil_ip_180_m3d : Option ℚ := none
  cond_ip_180_m3d : Option ℚ := none
  water_ip_180_m3d : Option ℚ := none
  gas_ip_365_e3m3d : Option ℚ := none
  oil_ip_365_m3d : Option ℚ := none
  cond_ip_365_m3d : Option ℚ := none
  water_ip_365_m3d : Option ℚ := none
deriving DecidableEq, Repr

/-- The eligibility gate of `calculate_well_ip`: at least two monthly rows,
and the selection of rows with `Prod_days_cum <= 365`, `Prod_days == 0`
and `Total_prod_vol (m3) > 0` is empty. -/
def gatePass (ps : List PreparedRecord) : Prop :=
  2 ≤ ps.length ∧
    ∀ p ∈ ps, ¬(p.prod_days_cum ≤ 365 ∧ p.row.prod_days = 0 ∧ 0 < p.total_prod_vol)

instance (ps : List PreparedRecord) : Decidable (gatePass ps) := by
  unfold gatePass; infer_instance

/-- Linear interpolation between knots `a` and `b` (pairs of x and y)
evaluated at `x`. -/
def linSeg (a b : ℚ × ℚ) (x : ℚ) : ℚ :=
  a.2 + (b.2 - a.2) * (x - a.1) / (b.1 - a.1)

/-- Walk the knot list segment by segment; `p0` is the left knot of the
current segment.  Past the last knot the result is `none` (the NaN fill
value of `interp1d(..., bounds_error=False)`). -/
def interpPts : ℚ × ℚ → List (ℚ × ℚ) → ℚ → Option ℚ
  | _, [], _ => none
  | p0, p1 :: rest, x =>
    if x ≤ p1.1 then some (linSeg p0 p1 x) else interpPts p1 rest x

/-- `scipy.interpolate.interp1d(xs, ys, bounds_error=False)` applied to a
point, for a sorted knot list: `none` strictly outside the knot range,
piecewise-linear inside.  A list of fewer than two knots gives no value
(scipy raises there; the caller's gate prevents it). -/
def interp1d : List (ℚ × ℚ) → ℚ → Option ℚ
  | [], _ => none
  | [_], _ => none
  | p0 :: p1 :: rest, x =>
    if x < p0.1 then none else interpPts p0 (p1 :: rest) x

/-- The interpolation knots for one stream: x is `Prod_days_cum`, y is the
stream's cumulative volume column selected by `f`. -/
def knotsFor (ps : List PreparedRecord) (f : PreparedRecord → ℚ) : List (ℚ × ℚ) :=
  ps.map fun p => (p.prod_days_cum, f p)

/-- One IP value: the interpolant of a stream's cumulative volume evaluated
at milestone `m`, divided by `m`.  NaN propagates through the division. -/
def ipVal (ps : List PreparedRecord) (f : PreparedRecord → ℚ) (m : ℚ) : Option ℚ :=
  (interp1d (knotsFor ps f) m).map (· / m)

/-- Cumulative gas column `Gas_prod_cum (e3m3)` of a prepared row. -/
def gasCum (p : PreparedRecord) : ℚ := p.row.gas_prod_cum

/-- Cumulative oil column `Oil_prod_cum (m3)` of a prepared row. -/
def oilCum (p : PreparedRecord) : ℚ := p.row.oil_prod_cum

/-- Cumulative condensate column `Cond_prod_cum (m3)` of a prepared row. -/
def condCum (p : PreparedRecord) : ℚ := p.row.cond_prod_cum

/-- Cumulative water column `Water_prod_cum (m3)` of a prepared row. -/
def waterCum (p : PreparedRecord) : ℚ := p.row.water_prod_cum

/-- `Prod_days_cum` of the last prepared row; `iloc[-1]` on the prepared
series (the source never evaluates it on an empty series). -/
def lastCum (ps : List PreparedRecord) : ℚ :=
  match ps.getLast? with
  | some p => p.prod_days_cum
  | none => 0

/-- `calculate_well_ip` from `wellip.py`.  `none` models the exception an
empty dataframe would raise at `iloc[0]`; every non-empty series yields a
`WellIP`. -/
def calculate_well_ip (df : List MonthlyRecord) : Option WellIP :=
  match df with
  | [] => none
  | r0 :: rs =>
    let ps := prepareSeries (r0 :: rs)
    let rl := (r0 :: rs).getLast (List.cons_ne_nil r0 rs)
    let base : WellIP :=
      { wa := r0.wa_num
        uwi := r0.uwi
        first_prod_month := r0.prod_period
        last_prod_month := rl.prod_period
        cum_prod_gas_e6m3 := rl.gas_prod_cum / 1000
        cum_prod_oil_e3m3 := rl.oil_prod_cum / 1000
        cum_prod_cond_e3m3 := rl.cond_prod_cum / 1000
        cum_prod_water_e3m3 := rl.water_prod_cum / 1000
        cum_prod_days := lastCum ps }
    if gatePass ps then
      some
        { base with
          gas_ip_30_e3m3d := ipVal ps gasCum 30
          oil_ip_30_m3d := ipVal ps oilCum 30
          cond_ip_30_m3d := ipVal ps condCum 30
          water_ip_30_m3d := ipVal ps waterCum 30
          gas_ip_90_e3m3d := ipVal ps gasCum 90
          oil_ip_90_m3d := ipVal ps oilCum 90
          cond_ip_90_m3d := ipVal ps condCum 90
          water_ip_90_m3d := ipVal ps waterCum 90
          gas_ip_180_e3m3d := ipVal ps gasCum 180
          oil_ip_180_m3d := ipVal ps oilCum 180
          cond_ip_180_m3d := ipVal ps condCum 180
          water_ip_180_m3d := ipVal ps waterCum 180
          gas_ip_365_e3m3d := ipVal ps gasCum 365
          oil_ip_365_m3d := ipVal ps oilCum 365
          cond_ip_365_m3d := ipVal ps condCum 365
          water_ip_365_m3d := ipVal ps waterCum 365 }
    else some base

/-- Round half to even to an integer, the tie-breaking rule of Python
`round`. -/
def roundHalfEven (q : ℚ) : ℤ :=
  let f := ⌊q⌋
  let frac := q - f
  if frac < 1 / 2 then f
  else if 1 / 2 < frac then f + 1
  else if f % 2 = 0 then f else f + 1

/-- Python `round(x, 1)`: round half to even at one decimal place. -/
def round1 (q : ℚ) : ℚ :=
  (roundHalfEven (q * 10) : ℚ) / 10

/-- A Python dict value as produced by `wellip_to_dict`: a string, an int,
or a float (with `none` for NaN). -/
inductive DVal where
  | vs : String → DVal
  | vi : Int → DVal
  | vf : Option ℚ → DVal
deriving DecidableEq, Repr

/-- `BBL_M3 = 6.29`, barrels per cubic metre. -/
def BBL_M3 : ℚ := 6.29

/-- `MCF_E3M3 = 35.315`, thousand cubic feet per thousand cubic metres. -/
def MCF_E3M3 : ℚ := 35.315

/-- The dict literal built by `wellip_to_dict` before the final rounding
loop, in insertion order; the `field` branch applies the fixed conversion
factors, the `metric` branch reports the `WellIP` fields unchanged. -/
def rawDict (w : WellIP) (units : String) : List (String × DVal) :=
  if units = "field" then
    [("WA", DVal.vs w.wa),
     ("UWI", DVal.vs w.uwi),
     ("First prod month", DVal.vi w.first_prod_month),
     ("Last prod month", DVal.vi w.last_prod_month),
     ("Cum prod gas (Bcf)", DVal.vf (some (w.cum_prod_gas_e6m3 * MCF_E3M3 * 0.001))),
     ("Cum prod oil (Mbbl)", DVal.vf (some (w.cum_prod_oil_e3m3 * BBL_M3))),
     ("Cum prod cond (Mbbl)", DVal.vf (some (w.cum_prod_cond_e3m3 * BBL_M3))),
     ("Cum prod water (Mbbl)", DVal.vf (some (w.cum_prod_water_e3m3 * BBL_M3))),
     ("Cum prod days", DVal.vf (some w.cum_prod_days)),
     ("Gas IP 30 (Mcf/d)", DVal.vf (w.gas_ip_30_e3m3d.map (· * MCF_E3M3))),
     ("Oil IP 30 (bbl/d)", DVal.vf (w.oil_ip_30_m3d.map (· * BBL_M3))),
     ("Cond IP 30 (bbl/d)", DVal.vf (w.cond_ip_30_m3d.map (· * BBL_M3))),
     ("Water IP 30 (bbl/d)", DVal.vf (w.water_ip_30_m3d.map (· * BBL_M3))),
     ("Gas IP 90 (Mcf/d)", DVal.vf (w.gas_ip_90_e3m3d.map (· * MCF_E3M3))),
     ("Oil IP 90 (bbl/d)", DVal.vf (w.oil_ip_90_m3d.map (· * BBL_M3))),
     ("Cond IP 90 (bbl/d)", DVal.vf (w.cond_ip_90_m3d.map (· * BBL_M3))),
     ("Water IP 90 (bbl/d)", DVal.vf (w.water_ip_90_m3d.map (· * BBL_M3))),
     ("Gas IP 180 (Mcf/d)", DVal.vf (w.gas_ip_180_e3m3d.map (· * MCF_E3M3))),
     ("Oil IP 180 (bbl/d)", DVal.vf (w.oil_ip_180_m3d.map (· * BBL_M3))),
     ("Cond IP 180 (bbl/d)", DVal.vf (w.cond_ip_180_m3d.map (· * BBL_M3))),
     ("Water IP 180 (bbl/d)", DVal.vf (w.water_ip_180_m3d.map (· * BBL_M3))),
     ("Gas IP 365 (Mcf/d)", DVal.vf (w.gas_ip_365_e3m3d.map (· * MCF_E3M3))),
     ("Oil IP 365 (bbl/d)", DVal.vf (w.oil_ip_365_m3d.map (· * BBL_M3))),
     ("Cond IP 365 (bbl/d)", DVal.vf (w.cond_ip_365_m3d.map (· * BBL_M3))),
     ("Water IP 365 (bbl/d)", DVal.vf (w.water_ip_365_m3d.map (· * BBL_M3)))]
  else
    [("WA", DVal.vs w.wa),
     ("UWI", DVal.vs w.uwi),
     ("First prod month", DVal.vi w.first_prod_month),
     ("Last prod month", DVal.vi w.last_prod_month),
     ("Cum prod gas (E6m3)", DVal.vf (some w.cum_prod_gas_e6m3)),
     ("Cum prod oil (E3m3)", DVal.vf (some w.cum_prod_oil_e3m3)),
     ("Cum prod cond (E3m3)", DVal.vf (some w.cum_prod_cond_e3m3)),
     ("Cum prod water (E3m3)", DVal.vf (some w.cum_prod_water_e3m3)),
     ("Cum prod days", DVal.vf (some w.cum_prod_days)),
     ("Gas IP 30 (E3m3/d)", DVal.vf w.gas_ip_30_e3m3d),
     ("Oil IP 30 (m3/d)", DVal.vf w.oil_ip_30_m3d),
     ("Cond IP 30 (m3/d)", DVal.vf w.cond_ip_30_m3d),
     ("Water IP 30 (m3/d)", DVal.vf w.water_ip_30_m3d),
     ("Gas IP 90 (E3m3/d)", DVal.vf w.gas_ip_90_e3m3d),
     ("Oil IP 90 (m3/d)", DVal.vf w.oil_ip_90_m3d),
     ("Cond IP 90 (m3/d)", DVal.vf w.cond_ip_90_m3d),
     ("Water IP 90 (m3/d)", DVal.vf w.water_ip_90_m3d),
     ("Gas IP 180 (E3m3/d)", DVal.vf w.gas_ip_180_e3m3d),
     ("Oil IP 180 (m3/d)", DVal.vf w.oil_ip_180_m3d),
     ("Cond IP 180 (m3/d)", DVal.vf w.cond_ip_180_m3d),
     ("Water IP 180 (m3/d)", DVal.vf w.water_ip_180_m3d),
     ("Gas IP 365 (E3m3/d)", DVal.vf w.gas_ip_365_e3m3d),
     ("Oil IP 365 (m3/d)", DVal.vf w.oil_ip_365_m3d),
     ("Cond IP 365 (m3/d)", DVal.vf w.cond_ip_365_m3d),
     ("Water IP 365 (m3/d)", DVal.vf w.water_ip_365_m3d)]

/-- The final loop of `wellip_to_dict`: floats are rounded to one decimal,
`round(nan, 1)` stays NaN, strings and ints pass through. -/
def roundVal : DVal → DVal
  | DVal.vf (some q) => DVal.vf (some (round1 q))
  | v => v

/-- `wellip_to_dict` from `wellip.py`: build the unit-specific dict, then
round every float value to one decimal place. -/
def wellip_to_dict (w : WellIP) (units : String) : List (String × DVal) :=
  (rawDict w units).map fun kv => (kv.1, roundVal kv.2)

/-- A JSON value of the API response body. -/
inductive JVal where
  | js : String → JVal
  | ji : Int → JVal
  | jf : ℚ → JVal
  | jnull : JVal
deriving DecidableEq, Repr

/-- The NaN-to-null loop of the `ip` endpoint (`value != value` is true
exactly for NaN): NaN floats become JSON null, everything else keeps its
value. -/
def toJson : DVal → JVal
  | DVal.vs s => JVal.js s
  | DVal.vi n => JVal.ji n
  | DVal.vf none => JVal.jnull
  | DVal.vf (some q) => JVal.jf q

/-- The detail message of a 400 response of the `ip` endpoint: either the
WA-format message or the units message of `main.py`. -/
inductive ErrDetail where
  | waFormat : ErrDetail
  | unitsChoice : ErrDetail
deriving DecidableEq, Repr

/-- Outcome of a `GET /api/{wa}` request: 200 with a JSON body, 400 with a
validation detail, or 404. -/
inductive ApiResult where
  | ok : List (String × JVal) → ApiResult
  | badRequest : ErrDetail → ApiResult
  | notFound : ApiResult
deriving DecidableEq, Repr

/-- The `ip` endpoint of `main.py`.  `wells` is the published mapping
`all_wells_ip` loaded at startup, as an association list. -/
def ipEndpoint (wells : List (String × WellIP)) (wa units : String) : ApiResult :=
  if wa.length ≠ 5 ∨ ¬wa.data.all Char.isDigit then
    ApiResult.badRequest ErrDetail.waFormat
  else if units ≠ "metric" ∧ units ≠ "field" then
    ApiResult.badRequest ErrDetail.unitsChoice
  else
    match List.lookup wa wells with
    | some w => ApiResult.ok ((wellip_to_dict w units).map fun kv => (kv.1, toJson kv.2))
    | none => ApiResult.notFound

/-- A one-well dataframe as the caller sees it: the csv rows plus any
columns beyond the csv schema that have been assigned onto it. -/
structure WellFrame where
  rows : List MonthlyRecord
  extra : List (String × List ℚ)
deriving DecidableEq, Repr

/-- Pandas column assignment on the extra columns: replace the column if
present, append it otherwise. -/
def setCol : List (String × List ℚ) → String → List ℚ → List (String × List ℚ)
  | [], name, vals => [(name, vals)]
  | kv :: rest, name, vals =>
    if kv.1 = name then (name, vals) :: rest else kv :: setCol rest name vals

/-- `calculate_well_ip` observed at the dataframe level: the first
component is the state of the caller-supplied dataframe after the call
(the source assigns the two derived columns onto it in place), the second
the returned `WellIP`. -/
def calculate_well_ip_frame (fr : WellFrame) : WellFrame × Option WellIP :=
  (⟨fr.rows,
    setCol
      (setCol fr.extra "Prod_days_cum" ((prepareSeries fr.rows).map (·.prod_days_cum)))
      "Total_prod_vol (m3)" ((prepareSeries fr.rows).map (·.total_prod_vol))⟩,
   calculate_well_ip fr.rows)

/-- The key list of the metric response body, in insertion order. -/
def metricKeys : List String :=
  ["WA", "UWI", "First prod month", "Last prod month",
   "Cum prod gas (E6m3)", "Cum prod oil (E3m3)", "Cum prod cond (E3m3)",
   "Cum prod water (E3m3)", "Cum prod days",
   "Gas IP 30 (E3m3/d)", "Oil IP 30 (m3/d)", "Cond IP 30 (m3/d)", "Water IP 30 (m3/d)",
   "Gas IP 90 (E3m3/d)", "Oil IP 90 (m3/d)", "Cond IP 90 (m3/d)", "Water IP 90 (m3/d)",
   "Gas IP 180 (E3m3/d)", "Oil IP 180 (m3/d)", "Cond IP 180 (m3/d)", "Water IP 180 (m3/d)",
   "Gas IP 365 (E3m3/d)", "Oil IP 365 (m3/d)", "Cond IP 365 (m3/d)", "Water IP 365 (m3/d)"]

/-- The key list of the field-units response body, in insertion order. -/
def fieldKeys : List String :=
  ["WA", "UWI", "First prod month", "Last prod month",
   "Cum prod gas (Bcf)", "Cum prod oil (Mbbl)", "Cum prod cond (Mbbl)",
   "Cum prod water (Mbbl)", "Cum prod days",
   "Gas IP 30 (Mcf/d)", "Oil IP 30 (bbl/d)", "Cond IP 30 (bbl/d)", "Water IP 30 (bbl/d)",
   "Gas IP 90 (Mcf/d)", "Oil IP 90 (bbl/d)", "Cond IP 90 (bbl/d)", "Water IP 90 (bbl/d)",
   "Gas IP 180 (Mcf/d)", "Oil IP 180 (bbl/d)", "Cond IP 180 (bbl/d)", "Water IP 180 (bbl/d)",
   "Gas IP 365 (Mcf/d)", "Oil IP 365 (bbl/d)", "Cond IP 365 (bbl/d)", "Water IP 365 (bbl/d)"]

/-- The sixteen IP entries of the response body for the given unit system:
each key paired with the unrounded value it reports, as a function of the
`WellIP` (`none` when the IP value is not available). -/
def ipFields (units : String) : List (String × (WellIP → Option ℚ)) :=
  if units = "field" then
    [("Gas IP 30 (Mcf/d)", fun w => w.gas_ip_30_e3m3d.map (· * MCF_E3M3)),
     ("Oil IP 30 (bbl/d)", fun w => w.oil_ip_30_m3d.map (· * BBL_M3)),
     ("Cond IP 30 (bbl/d)", fun w => w.cond_ip_30_m3d.map (· * BBL_M3)),
     ("Water IP 30 (bbl/d)", fun w => w.water_ip_30_m3d.map (· * BBL_M3)),
     ("Gas IP 90 (Mcf/d)", fun w => w.gas_ip_90_e3m3d.map (· * MCF_E3M3)),
     ("Oil IP 90 (bbl/d)", fun w => w.oil_ip_90_m3d.map (· * BBL_M3)),
     ("Cond IP 90 (bbl/d)", fun w => w.cond_ip_90_m3d.map (· * BBL_M3)),
     ("Water IP 90 (bbl/d)", fun w => w.water_ip_90_m3d.map (· * BBL_M3)),
     ("Gas IP 180 (Mcf/d)", fun w => w.gas_ip_180_e3m3d.map (· * MCF_E3M3)),
     ("Oil IP 180 (bbl/d)", fun w => w.oil_ip_180_m3d.map (· * BBL_M3)),
     ("Cond IP 180 (bbl/d)", fun w => w.cond_ip_180_m3d.map (· * BBL_M3)),
     ("Water IP 180 (bbl/d)", fun w => w.water_ip_180_m3d.map (· * BBL_M3)),
     ("Gas IP 365 (Mcf/d)", fun w => w.gas_ip_365_e3m3d.map (· * MCF_E3M3)),
     ("Oil IP 365 (bbl/d)", fun w => w.oil_ip_365_m3d.map (· * BBL_M3)),
     ("Cond IP 365 (bbl/d)", fun w => w.cond_ip_365_m3d.map (· * BBL_M3)),
     ("Water IP 365 (bbl/d)", fun w => w.water_ip_365_m3d.map (· * BBL_M3))]
  else
    [("Gas IP 30 (E3m3/d)", fun w => w.gas_ip_30_e3m3d),
     ("Oil IP 30 (m3/d)", fun w => w.oil_ip_30_m3d),
     ("Cond IP 30 (m3/d)", fun w => w.cond_ip_30_m3d),
     ("Water IP 30 (m3/d)", fun w => w.water_ip_30_m3d),
     ("Gas IP 90 (E3m3/d)", fun w => w.gas_ip_90_e3m3d),
     ("Oil IP 90 (m3/d)", fun w => w.oil_ip_90_m3d),
     ("Cond IP 90 (m3/d)", fun w => w.cond_ip_90_m3d),
     ("Water IP 90 (m3/d)", fun w => w.water_ip_90_m3d),
     ("Gas IP 180 (E3m3/d)", fun w => w.gas_ip_180_e3m3d),
     ("Oil IP 180 (m3/d)", fun w => w.oil_ip_180_m3d),
     ("Cond IP 180 (m3/d)", fun w => w.cond_ip_180_m3d),
     ("Water IP 180 (m3/d)", fun w => w.water_ip_180_m3d),
     ("Gas IP 365 (E3m3/d)", fun w => w.gas_ip_365_e3m3d),
     ("Oil IP 365 (m3/d)", fun w => w.oil_ip_365_m3d),
     ("Cond IP 365 (m3/d)", fun w => w.cond_ip_365_m3d),
     ("Water IP 365 (m3/d)", fun w => w.water_ip_365_m3d)]

/-- Helper for concrete test wells: a monthly record with fixed identity
and the given period, monthly volumes, producing days and cumulative
volumes. -/
def mkRecord (period : Int) (gasV oilV waterV condV days gasC oilC waterC condC : ℚ) :
    MonthlyRecord :=
  { wa_num := "12345", uwi := "200A000J000A0000", prod_period := period,
    gas_prod_vol := gasV, oil_prod_vol := oilV, water_prod_vol := waterV,
    cond_prod_vol := condV, prod_days := days, gas_prod_cum := gasC,
    oil_prod_cum := oilC, water_prod_cum := waterC, cond_prod_cum := condC }

/-- First month of the two-month test well of the specification: 30
producing days, cumulative gas 100, oil 0, water 50, condensate 5. -/
def scenMonth1 : MonthlyRecord := mkRecord 202001 100 0 50 5 30 100 0 50 5

/-- Second month of the two-month test well: 30 more producing days,
cumulative gas 220, oil 0, water 110, condensate 11. -/
def scenMonth2 : MonthlyRecord := mkRecord 202002 120 0 60 6 30 220 0 110 11

/-- The two-month test series: knots at cumulative days 30 and 60. -/
def scenSeries : List MonthlyRecord := [scenMonth1, scenMonth2]

/-- A test well whose final cumulative producing days is exactly 365:
200 days in the first month, 165 in the second. -/
def scen365Series : List MonthlyRecord :=
  [mkRecord 202001 100 0 50 5 200 100 0 50 5,
   mkRecord 202002 120 0 60 6 165 220 0 110 11]

/-- A two-month test well with a reporting defect: the second month has
zero producing days but positive produced volume, within the first 365
cumulative producing days. -/
def defectSeries : List MonthlyRecord :=
  [mkRecord 202001 100 0 50 5 30 100 0 50 5,
   mkRecord 202002 120 0 60 6 0 220 0 110 11]

/-- A test `WellIP` with small values: cumulative oil 0.04 E3m3 and a gas
IP30 of 0.04 E3m3/d, both of which round to 0.0 in metric units while
their field-unit conversions do not round to 0.0. -/
def wExample : WellIP :=
  { wa := "00001", uwi := "200A000J000A0000", first_prod_month := 202001,
    last_prod_month := 202012, cum_prod_gas_e6m3 := 2, cum_prod_oil_e3m3 := 1 / 25,
    cum_prod_cond_e3m3 := 1, cum_prod_water_e3m3 := 3, cum_prod_days := 100,
    gas_ip_30_e3m3d := some (1 / 25) }

/-- A published mapping holding the single test well under WA 00001. -/
def wellsExample : List (String × WellIP) := [("00001", wExample)]

/-- Scale the float content of a dict value by a conversion factor; strings
and ints are untouched, NaN stays NaN. -/
def scaleVal (c : ℚ) : DVal → DVal
  | DVal.vf o => DVal.vf (o.map (· * c))
  | v => v

/-- The non-volumetric keys shared verbatim by the metric and field
variants of the response body. -/
def idKeys : List String :=
  ["WA", "UWI", "First prod month", "Last prod month", "Cum prod days"]

/-- The 21 volumetric fields: metric key, field key and the documented
conversion factor from the metric value to the field value. -/
def volPairs : List (String × String × ℚ) :=
  [("Cum prod gas (E6m3)", "Cum prod gas (Bcf)", MCF_E3M3 * 0.001),
   ("Cum prod oil (E3m3)", "Cum prod oil (Mbbl)", BBL_M3),
   ("Cum prod cond (E3m3)", "Cum prod cond (Mbbl)", BBL_M3),
   ("Cum prod water (E3m3)", "Cum prod water (Mbbl)", BBL_M3),
   ("Gas IP 30 (E3m3/d)", "Gas IP 30 (Mcf/d)", MCF_E3M3),
   ("Oil IP 30 (m3/d)", "Oil IP 30 (bbl/d)", BBL_M3),
   ("Cond IP 30 (m3/d)", "Cond IP 30 (bbl/d)", BBL_M3),
   ("Water IP 30 (m3/d)", "Water IP 30 (bbl/d)", BBL_M3),
   ("Gas IP 90 (E3m3/d)", "Gas IP 90 (Mcf/d)", MCF_E3M3),
   ("Oil IP 90 (m3/d)", "Oil IP 90 (bbl/d)", BBL_M3),
   ("Cond IP 90 (m3/d)", "Cond IP 90 (bbl/d)", BBL_M3),
   ("Water IP 90 (m3/d)", "Water IP 90 (bbl/d)", BBL_M3),
   ("Gas IP 180 (E3m3/d)", "Gas IP 180 (Mcf/d)", MCF_E3M3),
   ("Oil IP 180 (m3/d)", "Oil IP 180 (bbl/d)", BBL_M3),
   ("Cond IP 180 (m3/d)", "Cond IP 180 (bbl/d)", BBL_M3),
   ("Water IP 180 (m3/d)", "Water IP 180 (bbl/d)", BBL_M3),
   ("Gas IP 365 (E3m3/d)", "Gas IP 365 (Mcf/d)", MCF_E3M3),
   ("Oil IP 365 (m3/d)", "Oil IP 365 (bbl/d)", BBL_M3),
   ("Cond IP 365 (m3/d)", "Cond IP 365 (bbl/d)", BBL_M3),
   ("Water IP 365 (m3/d)", "Water IP 365 (bbl/d)", BBL_M3)]

/-! ## Lemmas about series preparation -/

theorem prepareFrom_length (df : List MonthlyRecord) :
    ∀ acc : ℚ, (prepareFrom acc df).length = df.length := by
  induction df with
  | nil => intro acc; rfl
  | cons r rs ih => intro acc; simp [prepareFrom, ih]

theorem prepareFrom_map_row (df : List MonthlyRecord) :
    ∀ acc : ℚ, (prepareFrom acc df).map (·.row) = df := by
  induction df with
  | nil => intro acc; rfl
  | cons r rs ih => intro acc; simp [prepareFrom, ih]

theorem prepareFrom_elem (df : List MonthlyRecord) :
    ∀ (acc : ℚ) (i : ℕ) (p : PreparedRecord), (prepareFrom acc df)[i]? = some p →
      ∃ r : MonthlyRecord, df[i]? = some r ∧ p.row = r ∧
        p.prod_days_cum = acc + ((df.take (i + 1)).map (·.prod_days)).sum ∧
        p.total_prod_vol = totalVol r := by
  induction df with
  | nil => intro acc i p h; simp [prepareFrom] at h
  | cons r rs ih =>
    intro acc i p h
    cases i with
    | zero =>
      simp [prepareFrom] at h
      exact ⟨r, by simp, by simp [← h], by simp [← h], by simp [← h]⟩
    | succ i =>
      simp only [prepareFrom, List.getElem?_cons_succ] at h
      obtain ⟨r', hr', hrow, hcum, htot⟩ := ih (acc + r.prod_days) i p h
      refine ⟨r', by simpa using hr', hrow, ?_, htot⟩
      rw [hcum]
      simp [List.take_succ_cons, add_assoc]

theorem prepareFrom_cum_chain (df : List MonthlyRecord)
    (h : ∀ r ∈ df, 0 ≤ r.prod_days) :
    ∀ acc : ℚ, List.Chain' (· ≤ ·) ((prepareFrom acc df).map (·.prod_days_cum)) := by
  induction df with
  | nil => intro acc; simp [prepareFrom]
  | cons r rs ih =>
    intro acc
    have hrs : ∀ r' ∈ rs, 0 ≤ r'.prod_days := fun r' hr' => h r' (List.mem_cons_of_mem _ hr')
    cases rs with
    | nil => simp [prepareFrom]
    | cons r2 rs2 =>
      rw [prepareFrom, prepareFrom, List.map_cons, List.map_cons, List.chain'_cons]
      constructor
      · have : 0 ≤ r2.prod_days := hrs r2 (List.mem_cons_self r2 rs2)
        simp only []
        linarith
      · have := ih hrs (acc + r.prod_days)
        rw [prepareFrom, List.map_cons] at this
        exact this

/-! ## Lemmas about the linear interpolant -/

theorem chain_fst_lt_of_mem {p q : ℚ × ℚ} {l : List (ℚ × ℚ)}
    (hc : List.Chain' (fun a b => a.1 < b.1) (p :: l)) (hq : q ∈ l) : p.1 < q.1 := by
  induction l generalizing p with
  | nil => cases hq
  | cons r l ih =>
    rw [List.chain'_cons] at hc
    rcases List.mem_cons.mp hq with rfl | hq'
    · exact hc.1
    · exact lt_trans hc.1 (ih hc.2 hq')

theorem interpPts_high (x : ℚ) :
    ∀ (rest : List (ℚ × ℚ)) (p0 : ℚ × ℚ) (hne : rest ≠ []),
      List.Chain' (fun a b => a.1 < b.1) (p0 :: rest) →
      (rest.getLast hne).1 < x → interpPts p0 rest x = none := by
  intro rest
  induction rest with
  | nil => intro p0 hne; exact absurd rfl hne
  | cons p1 rest' ih =>
    intro p0 _ hc hlast
    cases hrest : rest' with
    | nil =>
      subst hrest
      simp only [List.getLast_singleton] at hlast
      simp [interpPts, not_le.mpr hlast]
    | cons p2 rest'' =>
      subst hrest
      have hne' : p2 :: rest'' ≠ [] := List.cons_ne_nil p2 rest''
      rw [List.getLast_cons hne'] at hlast
      have hmem : (p2 :: rest'').getLast hne' ∈ p2 :: rest'' := List.getLast_mem hne'
      have hp1 : p1.1 < x :=
        lt_trans (chain_fst_lt_of_mem (List.chain'_cons.mp hc).2 hmem) hlast
      rw [interpPts, if_neg (not_le.mpr hp1)]
      exact ih p1 hne' (List.chain'_cons.mp hc).2 hlast

theorem interpPts_mem (x : ℚ) :
    ∀ (rest : List (ℚ × ℚ)) (p0 : ℚ × ℚ) (hne : rest ≠ []),
      List.Chain' (fun a b => a.1 < b.1) (p0 :: rest) →
      p0.1 ≤ x → x ≤ (rest.getLast hne).1 →
      ∃ a b : ℚ × ℚ, List.IsInfix [a, b] (p0 :: rest) ∧ a.1 ≤ x ∧ x ≤ b.1 ∧
        interpPts p0 rest x = some (linSeg a b x) := by
  intro rest
  induction rest with
  | nil => intro p0 hne; exact absurd rfl hne
  | cons p1 rest' ih =>
    intro p0 _ hc hlo hhi
    by_cases hx : x ≤ p1.1
    · exact ⟨p0, p1, ⟨[], rest', by simp⟩, hlo, hx, by simp [interpPts, hx]⟩
    · push_neg at hx
      cases hrest : rest' with
      | nil =>
        subst hrest
        simp only [List.getLast_singleton] at hhi
        exact absurd hhi (not_le.mpr hx)
      | cons p2 rest'' =>
        subst hrest
        have hne' : p2 :: rest'' ≠ [] := List.cons_ne_nil p2 rest''
        rw [List.getLast_cons hne'] at hhi
        obtain ⟨a, b, ⟨s, t, hst⟩, ha, hb, hval⟩ :=
          ih p1 hne' (List.chain'_cons.mp hc).2 (le_of_lt hx) hhi
        refine ⟨a, b, ⟨p0 :: s, t, ?_⟩, ha, hb, ?_⟩
        · rw [List.cons_append, List.cons_append, hst]
        · rw [interpPts, if_neg (not_le.mpr hx)]
          exact hval

theorem interpPts_at_last (x : ℚ) :
    ∀ (rest : List (ℚ × ℚ)) (p0 : ℚ × ℚ) (hne : rest ≠ []),
      List.Chain' (fun a b => a.1 < b.1) (p0 :: rest) →
      x = (rest.getLast hne).1 →
      interpPts p0 rest x = some (rest.getLast hne).2 := by
  intro rest
  induction rest with
  | nil => intro p0 hne; exact absurd rfl hne
  | cons p1 rest' ih =>
    intro p0 _ hc hx
    cases rest' with
    | nil =>
      simp only [List.getLast_singleton] at hx ⊢
      subst hx
      have hlt : p0.1 < p1.1 := (List.chain'_cons.mp hc).1
      have hne0 : p1.1 - p0.1 ≠ 0 := sub_ne_zero.mpr (ne_of_gt hlt)
      rw [interpPts, if_pos le_rfl]
      congr 1
      rw [linSeg, mul_div_assoc, div_self hne0, mul_one]
      ring
    | cons p2 rest'' =>
      have hne' : p2 :: rest'' ≠ [] := List.cons_ne_nil p2 rest''
      rw [List.getLast_cons hne'] at hx
      have hmem : (p2 :: rest'').getLast hne' ∈ p2 :: rest'' := List.getLast_mem hne'
      have hp1 : p1.1 < x := by
        rw [hx]; exact chain_fst_lt_of_mem (List.chain'_cons.mp hc).2 hmem
      rw [interpPts, if_neg (not_le.mpr hp1), List.getLast_cons hne']
      exact ih p1 hne' (List.chain'_cons.mp hc).2 hx

theorem interp1d_low (p0 p1 : ℚ × ℚ) (rest : List (ℚ × ℚ)) (x : ℚ) (h : x < p0.1) :
    interp1d (p0 :: p1 :: rest) x = none := by
  simp [interp1d, h]

theorem interp1d_high (p0 p1 : ℚ × ℚ) (rest : List (ℚ × ℚ)) (x : ℚ)
    (hc : List.Chain' (fun a b => a.1 < b.1) (p0 :: p1 :: rest))
    (h : ((p1 :: rest).getLast (List.cons_ne_nil p1 rest)).1 < x) :
    interp1d (p0 :: p1 :: rest) x = none := by
  have hp0 : p0.1 < x := by
    have hmem : (p1 :: rest).getLast (List.cons_ne_nil p1 rest) ∈ p1 :: rest :=
      List.getLast_mem _
    exact lt_trans (chain_fst_lt_of_mem hc hmem) h
  rw [interp1d, if_neg (not_lt.mpr (le_of_lt hp0))]
  exact interpPts_high x (p1 :: rest) p0 (List.cons_ne_nil p1 rest) hc h

theorem interp1d_in_range (p0 p1 : ℚ × ℚ) (rest : List (ℚ × ℚ)) (x : ℚ)
    (hc : List.Chain' (fun a b => a.1 < b.1) (p0 :: p1 :: rest))
    (hlo : p0.1 ≤ x) (hhi : x ≤ ((p1 :: rest).getLast (List.cons_ne_nil p1 rest)).1) :
    ∃ a b : ℚ × ℚ, List.IsInfix [a, b] (p0 :: p1 :: rest) ∧ a.1 ≤ x ∧ x ≤ b.1 ∧
      interp1d (p0 :: p1 :: rest) x = some (linSeg a b x) := by
  rw [interp1d, if_neg (not_lt.mpr hlo)]
  exact interpPts_mem x (p1 :: rest) p0 (List.cons_ne_nil p1 rest) hc hlo hhi

theorem interp1d_at_first (p0 p1 : ℚ × ℚ) (rest : List (ℚ × ℚ))
    (hc : List.Chain' (fun a b => a.1 < b.1) (p0 :: p1 :: rest)) :
    interp1d (p0 :: p1 :: rest) p0.1 = some p0.2 := by
  have hlt : p0.1 < p1.1 := (List.chain'_cons.mp hc).1
  rw [interp1d, if_neg (lt_irrefl p0.1), interpPts, if_pos (le_of_lt hlt)]
  congr 1
  rw [linSeg, sub_self, mul_zero, zero_div, add_zero]

theorem interp1d_at_last (p0 p1 : ℚ × ℚ) (rest : List (ℚ × ℚ))
    (hc : List.Chain' (fun a b => a.1 < b.1) (p0 :: p1 :: rest)) :
    interp1d (p0 :: p1 :: rest) ((p1 :: rest).getLast (List.cons_ne_nil p1 rest)).1 =
      some ((p1 :: rest).getLast (List.cons_ne_nil p1 rest)).2 := by
  have hmem : (p1 :: rest).getLast (List.cons_ne_nil p1 rest) ∈ p1 :: rest :=
    List.getLast_mem _
  have hp0 : p0.1 < ((p1 :: rest).getLast (List.cons_ne_nil p1 rest)).1 :=
    chain_fst_lt_of_mem hc hmem
  rw [interp1d, if_neg (not_lt.mpr (le_of_lt hp0))]
  exact interpPts_at_last _ (p1 :: rest) p0 (List.cons_ne_nil p1 rest) hc rfl

/-! ## Characterization of calculate_well_ip -/

theorem calculate_well_ip_of_gate (r0 : MonthlyRecord) (rs : List MonthlyRecord)
    (h : gatePass (prepareSeries (r0 :: rs))) :
    calculate_well_ip (r0 :: rs) = some
      { wa := r0.wa_num
        uwi := r0.uwi
        first_prod_month := r0.prod_period
        last_prod_month := ((r0 :: rs).getLast (List.cons_ne_nil r0 rs)).prod_period
        cum_prod_gas_e6m3 := ((r0 :: rs).getLast (List.cons_ne_nil r0 rs)).gas_prod_cum / 1000
        cum_prod_oil_e3m3 := ((r0 :: rs).getLast (List.cons_ne_nil r0 rs)).oil_prod_cum / 1000
        cum_prod_cond_e3m3 := ((r0 :: rs).getLast (List.cons_ne_nil r0 rs)).cond_prod_cum / 1000
        cum_prod_water_e3m3 := ((r0 :: rs).getLast (List.cons_ne_nil r0 rs)).water_prod_cum / 1000
        cum_prod_days := lastCum (prepareSeries (r0 :: rs))
        gas_ip_30_e3m3d := ipVal (prepareSeries (r0 :: rs)) gasCum 30
        oil_ip_30_m3d := ipVal (prepareSeries (r0 :: rs)) oilCum 30
        cond_ip_30_m3d := ipVal (prepareSeries (r0 :: rs)) condCum 30
        water_ip_30_m3d := ipVal (prepareSeries (r0 :: rs)) waterCum 30
        gas_ip_90_e3m3d := ipVal (prepareSeries (r0 :: rs)) gasCum 90
        oil_ip_90_m3d := ipVal (prepareSeries (r0 :: rs)) oilCum 90
        cond_ip_90_m3d := ipVal (prepareSeries (r0 :: rs)) condCum 90
        water_ip_90_m3d := ipVal (prepareSeries (r0 :: rs)) waterCum 90
        gas_ip_180_e3m3d := ipVal (prepareSeries (r0 :: rs)) gasCum 180
        oil_ip_180_m3d := ipVal (prepareSeries (r0 :: rs)) oilCum 180
        cond_ip_180_m3d := ipVal (prepareSeries (r0 :: rs)) condCum 180
        water_ip_180_m3d := ipVal (prepareSeries (r0 :: rs)) waterCum 180
        gas_ip_365_e3m3d := ipVal (prepareSeries (r0 :: rs)) gasCum 365
        oil_ip_365_m3d := ipVal (prepareSeries (r0 :: rs)) oilCum 365
        cond_ip_365_m3d := ipVal (prepareSeries (r0 :: rs)) condCum 365
        water_ip_365_m3d := ipVal (prepareSeries (r0 :: rs)) waterCum 365 } := by
  rw [calculate_well_ip]
  simp only [if_pos h]

theorem calculate_well_ip_of_not_gate (r0 : MonthlyRecord) (rs : List MonthlyRecord)
    (h : ¬gatePass (prepareSeries (r0 :: rs))) :
    calculate_well_ip (r0 :: rs) = some
      { wa := r0.wa_num
        uwi := r0.uwi
        first_prod_month := r0.prod_period
        last_prod_month := ((r0 :: rs).getLast (List.cons_ne_nil r0 rs)).prod_period
        cum_prod_gas_e6m3 := ((r0 :: rs).getLast (List.cons_ne_nil r0 rs)).gas_prod_cum / 1000
        cum_prod_oil_e3m3 := ((r0 :: rs).getLast (List.cons_ne_nil r0 rs)).oil_prod_cum / 1000
        cum_prod_cond_e3m3 := ((r0 :: rs).getLast (List.cons_ne_nil r0 rs)).cond_prod_cum / 1000
        cum_prod_water_e3m3 := ((r0 :: rs).getLast (List.cons_ne_nil r0 rs)).water_prod_cum / 1000
        cum_prod_days := lastCum (prepareSeries (r0 :: rs)) } := by
  rw [calculate_well_ip]
  simp only [if_neg h]

theorem gatePass_iff (df : List MonthlyRecord) :
    gatePass (prepareSeries df) ↔
      2 ≤ df.length ∧ ∀ p ∈ prepareSeries df,
        ¬(p.prod_days_cum ≤ 365 ∧ p.row.prod_days = 0 ∧ 0 < p.total_prod_vol) := by
  unfold gatePass
  rw [prepareSeries, prepareFrom_length]

theorem lastCum_prepareFrom (df : List MonthlyRecord) (hne : df ≠ []) :
    ∀ acc : ℚ, lastCum (prepareFrom acc df) = acc + (df.map (·.prod_days)).sum := by
  induction df with
  | nil => exact absurd rfl hne
  | cons r rs ih =>
    intro acc
    cases rs with
    | nil => simp [prepareFrom, lastCum]
    | cons r2 rs2 =>
      have h2 := ih (List.cons_ne_nil r2 rs2) (acc + r.prod_days)
      simp only [prepareFrom, lastCum, List.getLast?_cons_cons] at h2 ⊢
      rw [h2]
      simp [add_assoc]

/-! ## Claim C4: series preparation -/

/-- C4: series preparation keeps the length unchanged and derives exactly
the two per-month fields: cumulative producing days at month i is the
running sum of producing days over months 0..i in sequence order, and
total produced volume is gas monthly volume times 1000 plus the oil,
water and condensate monthly volumes; no record is filtered, reordered or
deduplicated (the prepared rows project back to the input, elementwise
and in order). -/
theorem prepareSeries_spec (df : List MonthlyRecord) :
    (prepareSeries df).length = df.length ∧
    (prepareSeries df).map (·.row) = df ∧
    ∀ (i : ℕ) (p : PreparedRecord), (prepareSeries df)[i]? = some p →
      df[i]? = some p.row ∧
      p.prod_days_cum = ((df.take (i + 1)).map (·.prod_days)).sum ∧
      p.total_prod_vol = p.row.gas_prod_vol * 1000 + p.row.oil_prod_vol +
        p.row.water_prod_vol + p.row.cond_prod_vol := by
  refine ⟨prepareFrom_length df 0, prepareFrom_map_row df 0, ?_⟩
  intro i p hp
  obtain ⟨r, hr, hrow, hcum, htot⟩ := prepareFrom_elem df 0 i p hp
  subst hrow
  rw [totalVol] at htot
  exact ⟨hr, by rw [hcum, zero_add], htot⟩

/-- Witness for C4 at the two-month test series: the second prepared row
carries the running total 60 and the derived total volume. -/
theorem prepareSeries_spec_witness :
    ∃ p : PreparedRecord, (prepareSeries scenSeries)[1]? = some p ∧
      p.prod_days_cum = ((scenSeries.take 2).map (·.prod_days)).sum ∧
      p.prod_days_cum = 60 := by
  obtain ⟨-, -, h⟩ := prepareSeries_spec scenSeries
  have hp : (prepareSeries scenSeries)[1]? =
      some { row := scenMonth2, prod_days_cum := 60, total_prod_vol := 120066 } := by
    norm_num [prepareSeries, prepareFrom, scenSeries, scenMonth1, scenMonth2, mkRecord, totalVol]
  exact ⟨_, hp, (h 1 _ hp).2.1, rfl⟩

/-! ## Claim C8: monotone cumulative producing days -/

/-- C8: when every monthly producing-days value is nonnegative, the derived
cumulative producing days column of the prepared series is non-decreasing
from the first month to the last. -/
theorem prepareSeries_cum_monotone (df : List MonthlyRecord)
    (h : ∀ r ∈ df, 0 ≤ r.prod_days) :
    List.Chain' (· ≤ ·) ((prepareSeries df).map (·.prod_days_cum)) :=
  prepareFrom_cum_chain df h 0

/-- Witness for C8 at the two-month test series. -/
theorem prepareSeries_cum_monotone_witness :
    List.Chain' (· ≤ ·) ((prepareSeries scenSeries).map (·.prod_days_cum)) :=
  prepareSeries_cum_monotone scenSeries (by decide)

/-! ## Claim C3: identity and cumulative fields -/

/-- C3: for every non-empty series, `calculate_well_ip` returns a `WellIP`
(no exception) whose identity fields come from the first record, whose
last reporting period and cumulative totals come from the last record
(each cumulative divided by 1000), and whose cumulative producing days is
the sum of all monthly producing days; a one-month series leaves all
sixteen IP values not available. -/
theorem calculate_well_ip_identity_and_cumulative (df : List MonthlyRecord)
    (hne : df ≠ []) :
    ∃ w : WellIP, calculate_well_ip df = some w ∧
      w.wa = (df.head hne).wa_num ∧
      w.uwi = (df.head hne).uwi ∧
      w.first_prod_month = (df.head hne).prod_period ∧
      w.last_prod_month = (df.getLast hne).prod_period ∧
      w.cum_prod_gas_e6m3 = (df.getLast hne).gas_prod_cum / 1000 ∧
      w.cum_prod_oil_e3m3 = (df.getLast hne).oil_prod_cum / 1000 ∧
      w.cum_prod_cond_e3m3 = (df.getLast hne).cond_prod_cum / 1000 ∧
      w.cum_prod_water_e3m3 = (df.getLast hne).water_prod_cum / 1000 ∧
      w.cum_prod_days = (df.map (·.prod_days)).sum ∧
      (df.length = 1 →
        w.gas_ip_30_e3m3d = none ∧ w.oil_ip_30_m3d = none ∧
        w.cond_ip_30_m3d = none ∧ w.water_ip_30_m3d = none ∧
        w.gas_ip_90_e3m3d = none ∧ w.oil_ip_90_m3d = none ∧
        w.cond_ip_90_m3d = none ∧ w.water_ip_90_m3d = none ∧
        w.gas_ip_180_e3m3d = none ∧ w.oil_ip_180_m3d = none ∧
        w.cond_ip_180_m3d = none ∧ w.water_ip_180_m3d = none ∧
        w.gas_ip_365_e3m3d = none ∧ w.oil_ip_365_m3d = none ∧
        w.cond_ip_365_m3d = none ∧ w.water_ip_365_m3d = none) := by
  cases df with
  | nil => exact absurd rfl hne
  | cons r0 rs =>
    have hcd : lastCum (prepareSeries (r0 :: rs)) = ((r0 :: rs).map (·.prod_days)).sum := by
      rw [prepareSeries, lastCum_prepareFrom (r0 :: rs) (List.cons_ne_nil r0 rs) 0, zero_add]
    by_cases hg : gatePass (prepareSeries (r0 :: rs))
    · refine ⟨_, calculate_well_ip_of_gate r0 rs hg,
        rfl, rfl, rfl, rfl, rfl, rfl, rfl, rfl, hcd, ?_⟩
      intro h1
      have h2 := ((gatePass_iff (r0 :: rs)).mp hg).1
      rw [h1] at h2
      omega
    · exact ⟨_, calculate_well_ip_of_not_gate r0 rs hg,
        rfl, rfl, rfl, rfl, rfl, rfl, rfl, rfl, hcd,
        fun _ => ⟨rfl, rfl, rfl, rfl, rfl, rfl, rfl, rfl,
          rfl, rfl, rfl, rfl, rfl, rfl, rfl, rfl⟩⟩

/-- Witness for C3 at a one-month series: no exception, cumulative fields
populated from that month, all IP values not available. -/
theorem calculate_well_ip_identity_and_cumulative_witness :
    ∃ w : WellIP, calculate_well_ip [scenMonth1] = some w ∧
      w.cum_prod_days = 30 ∧ w.cum_prod_gas_e6m3 = 1 / 10 ∧
      w.gas_ip_30_e3m3d = none := by
  obtain ⟨w, hw, -, -, -, -, hgas, -, -, -, hcd, hip⟩ :=
    calculate_well_ip_identity_and_cumulative [scenMonth1] (List.cons_ne_nil scenMonth1 [])
  refine ⟨w, hw, hcd.trans (by norm_num [scenMonth1, mkRecord]),
    hgas.trans (by norm_num [scenMonth1, mkRecord]), (hip rfl).1⟩

/-! ## Claim C1: the eligibility gate -/

/-- C1: `calculate_well_ip` attempts interpolation exactly when the series
has at least two monthly records and no record with cumulative producing
days at most 365 has zero producing days together with positive total
produced volume; when this gate fails, all sixteen IP values stay not
available while the identity and cumulative fields are still populated,
and no exception is raised (a `WellIP` is always returned). -/
theorem calculate_well_ip_gate_spec (df : List MonthlyRecord) (hne : df ≠ []) :
    ∃ w : WellIP, calculate_well_ip df = some w ∧
      (¬(2 ≤ df.length ∧ ∀ p ∈ prepareSeries df,
          ¬(p.prod_days_cum ≤ 365 ∧ p.row.prod_days = 0 ∧ 0 < p.total_prod_vol)) →
        (w.gas_ip_30_e3m3d = none ∧ w.oil_ip_30_m3d = none ∧
         w.cond_ip_30_m3d = none ∧ w.water_ip_30_m3d = none ∧
         w.gas_ip_90_e3m3d = none ∧ w.oil_ip_90_m3d = none ∧
         w.cond_ip_90_m3d = none ∧ w.water_ip_90_m3d = none ∧
         w.gas_ip_180_e3m3d = none ∧ w.oil_ip_180_m3d = none ∧
         w.cond_ip_180_m3d = none ∧ w.water_ip_180_m3d = none ∧
         w.gas_ip_365_e3m3d = none ∧ w.oil_ip_365_m3d = none ∧
         w.cond_ip_365_m3d = none ∧ w.water_ip_365_m3d = none) ∧
        w.wa = (df.head hne).wa_num ∧
        w.uwi = (df.head hne).uwi ∧
        w.first_prod_month = (df.head hne).prod_period ∧
        w.last_prod_month = (df.getLast hne).prod_period ∧
        w.cum_prod_gas_e6m3 = (df.getLast hne).gas_prod_cum / 1000 ∧
        w.cum_prod_oil_e3m3 = (df.getLast hne).oil_prod_cum / 1000 ∧
        w.cum_prod_cond_e3m3 = (df.getLast hne).cond_prod_cum / 1000 ∧
        w.cum_prod_water_e3m3 = (df.getLast hne).water_prod_cum / 1000 ∧
        w.cum_prod_days = (df.map (·.prod_days)).sum) ∧
      ((2 ≤ df.length ∧ ∀ p ∈ prepareSeries df,
          ¬(p.prod_days_cum ≤ 365 ∧ p.row.prod_days = 0 ∧ 0 < p.total_prod_vol)) →
        w.gas_ip_30_e3m3d = ipVal (prepareSeries df) gasCum 30 ∧
        w.oil_ip_30_m3d = ipVal (prepareSeries df) oilCum 30 ∧
        w.cond_ip_30_m3d = ipVal (prepareSeries df) condCum 30 ∧
        w.water_ip_30_m3d = ipVal (prepareSeries df) waterCum 30 ∧
        w.gas_ip_90_e3m3d = ipVal (prepareSeries df) gasCum 90 ∧
        w.oil_ip_90_m3d = ipVal (prepareSeries df) oilCum 90 ∧
        w.cond_ip_90_m3d = ipVal (prepareSeries df) condCum 90 ∧
        w.water_ip_90_m3d = ipVal (prepareSeries df) waterCum 90 ∧
        w.gas_ip_180_e3m3d = ipVal (prepareSeries df) gasCum 180 ∧
        w.oil_ip_180_m3d = ipVal (prepareSeries df) oilCum 180 ∧
        w.cond_ip_180_m3d = ipVal (prepareSeries df) condCum 180 ∧
        w.water_ip_180_m3d = ipVal (prepareSeries df) waterCum 180 ∧
        w.gas_ip_365_e3m3d = ipVal (prepareSeries df) gasCum 365 ∧
        w.oil_ip_365_m3d = ipVal (prepareSeries df) oilCum 365 ∧
        w.cond_ip_365_m3d = ipVal (prepareSeries df) condCum 365 ∧
        w.water_ip_365_m3d = ipVal (prepareSeries df) waterCum 365) := by
  cases df with
  | nil => exact absurd rfl hne
  | cons r0 rs =>
    have hcd : lastCum (prepareSeries (r0 :: rs)) = ((r0 :: rs).map (·.prod_days)).sum := by
      rw [prepareSeries, lastCum_prepareFrom (r0 :: rs) (List.cons_ne_nil r0 rs) 0, zero_add]
    by_cases hg : gatePass (prepareSeries (r0 :: rs))
    · refine ⟨_, calculate_well_ip_of_gate r0 rs hg, ?_, ?_⟩
      · intro hcon
        exact absurd ((gatePass_iff (r0 :: rs)).mp hg) hcon
      · intro _
        exact ⟨rfl, rfl, rfl, rfl, rfl, rfl, rfl, rfl,
          rfl, rfl, rfl, rfl, rfl, rfl, rfl, rfl⟩
    · refine ⟨_, calculate_well_ip_of_not_gate r0 rs hg, ?_, ?_⟩
      · intro _
        exact ⟨⟨rfl, rfl, rfl, rfl, rfl, rfl, rfl, rfl,
          rfl, rfl, rfl, rfl, rfl, rfl, rfl, rfl⟩,
          rfl, rfl, rfl, rfl, rfl, rfl, rfl, rfl, hcd⟩
      · intro hcon
        exact absurd ((gatePass_iff (r0 :: rs)).mpr hcon) hg

/-- Witness for C1 at the defective two-month series: the second month has
volume without producing days inside the first 365 cumulative days, so the
gate fails, all IP values stay not available and the cumulative fields are
still populated. -/
theorem calculate_well_ip_gate_spec_witness :
    ∃ w : WellIP, calculate_well_ip defectSeries = some w ∧
      w.gas_ip_30_e3m3d = none ∧ w.water_ip_365_m3d = none ∧ w.cum_prod_days = 30 := by
  obtain ⟨w, hw, hfail, -⟩ :=
    calculate_well_ip_gate_spec defectSeries (by simp [defectSeries])
  have hcon : ¬(2 ≤ defectSeries.length ∧ ∀ p ∈ prepareSeries defectSeries,
      ¬(p.prod_days_cum ≤ 365 ∧ p.row.prod_days = 0 ∧ 0 < p.total_prod_vol)) := by
    intro hcl
    refine hcl.2
      { row := mkRecord 202002 120 0 60 6 0 220 0 110 11,
        prod_days_cum := 30, total_prod_vol := 120066 }
      (by norm_num [prepareSeries, prepareFrom, defectSeries, mkRecord, totalVol])
      ⟨by norm_num, by norm_num [mkRecord], by norm_num⟩
  obtain ⟨hips, -, -, -, -, -, -, -, -, hcd⟩ := hfail hcon
  exact ⟨w, hw, hips.1, hips.2.2.2.2.2.2.2.2.2.2.2.2.2.2.2,
    hcd.trans (by norm_num [defectSeries, mkRecord])⟩

/-! ## Lemmas about the knots of a prepared series -/

theorem knots_chain (ps : List PreparedRecord) (f : PreparedRecord → ℚ)
    (h : List.Chain' (· < ·) (ps.map (·.prod_days_cum))) :
    List.Chain' (fun a b : ℚ × ℚ => a.1 < b.1) (knotsFor ps f) := by
  rw [knotsFor, List.chain'_map]
  rw [List.chain'_map] at h
  exact h

theorem knotsFor_getLast (q1 : PreparedRecord) (qs : List PreparedRecord)
    (f : PreparedRecord → ℚ) (hk : knotsFor (q1 :: qs) f ≠ []) :
    (knotsFor (q1 :: qs) f).getLast hk =
      (((q1 :: qs).getLast (List.cons_ne_nil q1 qs)).prod_days_cum,
       f ((q1 :: qs).getLast (List.cons_ne_nil q1 qs))) := by
  have h1 := List.getLast?_map (fun p => (p.prod_days_cum, f p)) (q1 :: qs)
  rw [List.getLast?_eq_getLast (q1 :: qs) (List.cons_ne_nil q1 qs)] at h1
  simp only [knotsFor] at hk ⊢
  rw [List.getLast?_eq_getLast _ hk] at h1
  exact Option.some.inj h1

theorem knotsCons_getLast (q1 : PreparedRecord) (qs : List PreparedRecord)
    (f : PreparedRecord → ℚ) :
    ((q1.prod_days_cum, f q1) :: knotsFor qs f).getLast
        (List.cons_ne_nil (q1.prod_days_cum, f q1) (knotsFor qs f)) =
      (((q1 :: qs).getLast (List.cons_ne_nil q1 qs)).prod_days_cum,
       f ((q1 :: qs).getLast (List.cons_ne_nil q1 qs))) :=
  knotsFor_getLast q1 qs f (by simp [knotsFor])

/-! ## Claim C2: interpolated IP values -/

/-- C2: when the gate passes, the sixteen IP fields are exactly the
interpolated values: for each stream and milestone the IP value is the
piecewise-linear interpolant of the stream's cumulative volume over the
(cumulative producing days, cumulative volume) knots evaluated at the
milestone and divided by the milestone; a milestone strictly outside the
knot range (below the first knot or above the last) gives `none`, never
an extrapolated value; a milestone inside the range is interpolated
linearly between two adjacent knots that bracket it. -/
theorem calculate_well_ip_interpolation (df : List MonthlyRecord)
    (q0 q1 : PreparedRecord) (qs : List PreparedRecord)
    (hps : prepareSeries df = q0 :: q1 :: qs)
    (hsorted : List.Chain' (· < ·) ((prepareSeries df).map (·.prod_days_cum)))
    (hgate : gatePass (prepareSeries df))
    (w : WellIP) (hw : calculate_well_ip df = some w) :
    (w.gas_ip_30_e3m3d = ipVal (prepareSeries df) gasCum 30 ∧
     w.oil_ip_30_m3d = ipVal (prepareSeries df) oilCum 30 ∧
     w.cond_ip_30_m3d = ipVal (prepareSeries df) condCum 30 ∧
     w.water_ip_30_m3d = ipVal (prepareSeries df) waterCum 30 ∧
     w.gas_ip_90_e3m3d = ipVal (prepareSeries df) gasCum 90 ∧
     w.oil_ip_90_m3d = ipVal (prepareSeries df) oilCum 90 ∧
     w.cond_ip_90_m3d = ipVal (prepareSeries df) condCum 90 ∧
     w.water_ip_90_m3d = ipVal (prepareSeries df) waterCum 90 ∧
     w.gas_ip_180_e3m3d = ipVal (prepareSeries df) gasCum 180 ∧
     w.oil_ip_180_m3d = ipVal (prepareSeries df) oilCum 180 ∧
     w.cond_ip_180_m3d = ipVal (prepareSeries df) condCum 180 ∧
     w.water_ip_180_m3d = ipVal (prepareSeries df) waterCum 180 ∧
     w.gas_ip_365_e3m3d = ipVal (prepareSeries df) gasCum 365 ∧
     w.oil_ip_365_m3d = ipVal (prepareSeries df) oilCum 365 ∧
     w.cond_ip_365_m3d = ipVal (prepareSeries df) condCum 365 ∧
     w.water_ip_365_m3d = ipVal (prepareSeries df) waterCum 365) ∧
    (∀ (f : PreparedRecord → ℚ) (m : ℚ),
      (m < q0.prod_days_cum ∨
        ((q1 :: qs).getLast (List.cons_ne_nil q1 qs)).prod_days_cum < m) →
      ipVal (prepareSeries df) f m = none) ∧
    (∀ (f : PreparedRecord → ℚ) (m : ℚ),
      q0.prod_days_cum ≤ m →
      m ≤ ((q1 :: qs).getLast (List.cons_ne_nil q1 qs)).prod_days_cum →
      ∃ a b : ℚ × ℚ, List.IsInfix [a, b] (knotsFor (prepareSeries df) f) ∧
        a.1 ≤ m ∧ m ≤ b.1 ∧
        ipVal (prepareSeries df) f m = some (linSeg a b m / m)) := by
  refine ⟨?_, ?_, ?_⟩
  · cases df with
    | nil => simp [prepareSeries, prepareFrom] at hps
    | cons r0 rs =>
      rw [calculate_well_ip_of_gate r0 rs hgate] at hw
      obtain rfl := Option.some.inj hw
      exact ⟨rfl, rfl, rfl, rfl, rfl, rfl, rfl, rfl,
        rfl, rfl, rfl, rfl, rfl, rfl, rfl, rfl⟩
  · intro f m hm
    have hc := knots_chain (prepareSeries df) f hsorted
    rw [hps] at hc
    have hkn : knotsFor (q0 :: q1 :: qs) f =
        (q0.prod_days_cum, f q0) :: (q1.prod_days_cum, f q1) :: knotsFor qs f := rfl
    rw [hkn] at hc
    rw [ipVal, hps, hkn]
    rcases hm with hlow | hhigh
    · rw [interp1d_low _ _ _ m hlow]
      rfl
    · have hlast : (((q1.prod_days_cum, f q1) :: knotsFor qs f).getLast
          (List.cons_ne_nil (q1.prod_days_cum, f q1) (knotsFor qs f))).1 < m := by
        rw [knotsCons_getLast q1 qs f]
        exact hhigh
      rw [interp1d_high _ _ _ m hc hlast]
      rfl
  · intro f m hlo hhi
    have hc := knots_chain (prepareSeries df) f hsorted
    rw [hps] at hc
    have hkn : knotsFor (q0 :: q1 :: qs) f =
        (q0.prod_days_cum, f q0) :: (q1.prod_days_cum, f q1) :: knotsFor qs f := rfl
    rw [hkn] at hc
    have hhi' : m ≤ (((q1.prod_days_cum, f q1) :: knotsFor qs f).getLast
        (List.cons_ne_nil (q1.prod_days_cum, f q1) (knotsFor qs f))).1 := by
      rw [knotsCons_getLast q1 qs f]
      exact hhi
    obtain ⟨a, b, hinf, ha, hb, hval⟩ :=
      interp1d_in_range (q0.prod_days_cum, f q0) (q1.prod_days_cum, f q1)
        (knotsFor qs f) m hc hlo hhi'
    refine ⟨a, b, ?_, ha, hb, ?_⟩
    · rw [hps, hkn]
      exact hinf
    · rw [ipVal, hps, hkn, hval]
      rfl

/-- Witness for C2 at the two-month test well: gas IP30 is 100/30 = 10/3
E3m3/d (day 30 lands on the first knot) and the IP90/180/365 values are
not available because cumulative producing days stops at 60. -/
theorem calculate_well_ip_interpolation_witness :
    ∃ w : WellIP, calculate_well_ip scenSeries = some w ∧
      w.gas_ip_30_e3m3d = some (10 / 3) ∧
      w.gas_ip_90_e3m3d = none ∧ w.gas_ip_180_e3m3d = none ∧
      w.gas_ip_365_e3m3d = none ∧ w.oil_ip_90_m3d = none ∧
      w.cond_ip_180_m3d = none ∧ w.water_ip_365_m3d = none := by
  have hgate : gatePass (prepareSeries scenSeries) := by
    constructor
    · norm_num [prepareSeries, prepareFrom, scenSeries]
    · intro p hp
      norm_num [prepareSeries, prepareFrom, scenSeries, scenMonth1, scenMonth2,
        mkRecord, totalVol] at hp
      rcases hp with rfl | rfl <;> norm_num
  obtain ⟨w, hw⟩ : ∃ w, calculate_well_ip scenSeries = some w :=
    ⟨_, calculate_well_ip_of_gate scenMonth1 [scenMonth2] hgate⟩
  have hps : prepareSeries scenSeries =
      [{ row := scenMonth1, prod_days_cum := 30, total_prod_vol := 100055 },
       { row := scenMonth2, prod_days_cum := 60, total_prod_vol := 120066 }] := by
    norm_num [prepareSeries, prepareFrom, scenSeries, scenMonth1, scenMonth2,
      mkRecord, totalVol]
  have hsorted : List.Chain' (· < ·) ((prepareSeries scenSeries).map (·.prod_days_cum)) := by
    rw [hps]
    norm_num [List.chain'_cons, List.chain'_singleton]
  obtain ⟨hlink, hnone, -⟩ :=
    calculate_well_ip_interpolation scenSeries
      { row := scenMonth1, prod_days_cum := 30, total_prod_vol := 100055 }
      { row := scenMonth2, prod_days_cum := 60, total_prod_vol := 120066 }
      [] hps hsorted hgate w hw
  have h60 : ∀ f : PreparedRecord → ℚ, ∀ m : ℚ, 60 < m →
      ipVal (prepareSeries scenSeries) f m = none := by
    intro f m hm
    refine hnone f m (Or.inr ?_)
    rw [List.getLast_singleton]
    exact hm
  refine ⟨w, hw, ?_, ?_, ?_, ?_, ?_, ?_, ?_⟩
  · rw [hlink.1, hps]
    norm_num [ipVal, interp1d, interpPts, knotsFor, linSeg, gasCum, scenMonth1,
      scenMonth2, mkRecord]
  · rw [hlink.2.2.2.2.1]
    exact h60 gasCum 90 (by norm_num)
  · rw [hlink.2.2.2.2.2.2.2.2.1]
    exact h60 gasCum 180 (by norm_num)
  · rw [hlink.2.2.2.2.2.2.2.2.2.2.2.2.1]
    exact h60 gasCum 365 (by norm_num)
  · rw [hlink.2.2.2.2.2.1]
    exact h60 oilCum 90 (by norm_num)
  · rw [hlink.2.2.2.2.2.2.2.2.2.2.1]
    exact h60 condCum 180 (by norm_num)
  · rw [hlink.2.2.2.2.2.2.2.2.2.2.2.2.2.2.2]
    exact h60 waterCum 365 (by norm_num)

/-! ## Claim C10: milestones on the knot-range boundary -/

/-- C10: when the gate passes, a milestone equal to the first or the last
knot's cumulative producing days is inside the knot range: the IP value is
that knot's cumulative volume divided by the milestone, not `none`; only
milestones strictly below the first knot or strictly above the last knot
give `none`.  The IP365 field the claim instances is tied to the
interpolant. -/
theorem ip_milestone_boundary (df : List MonthlyRecord)
    (q0 q1 : PreparedRecord) (qs : List PreparedRecord)
    (hps : prepareSeries df = q0 :: q1 :: qs)
    (hsorted : List.Chain' (· < ·) ((prepareSeries df).map (·.prod_days_cum)))
    (hgate : gatePass (prepareSeries df))
    (w : WellIP) (hw : calculate_well_ip df = some w)
    (f : PreparedRecord → ℚ) (m : ℚ) :
    w.gas_ip_365_e3m3d = ipVal (prepareSeries df) gasCum 365 ∧
    (m = q0.prod_days_cum → ipVal (prepareSeries df) f m = some (f q0 / m)) ∧
    (m = ((q1 :: qs).getLast (List.cons_ne_nil q1 qs)).prod_days_cum →
      ipVal (prepareSeries df) f m =
        some (f ((q1 :: qs).getLast (List.cons_ne_nil q1 qs)) / m)) ∧
    (m < q0.prod_days_cum → ipVal (prepareSeries df) f m = none) ∧
    (((q1 :: qs).getLast (List.cons_ne_nil q1 qs)).prod_days_cum < m →
      ipVal (prepareSeries df) f m = none) := by
  have hc := knots_chain (prepareSeries df) f hsorted
  rw [hps] at hc
  have hkn : knotsFor (q0 :: q1 :: qs) f =
      (q0.prod_days_cum, f q0) :: (q1.prod_days_cum, f q1) :: knotsFor qs f := rfl
  rw [hkn] at hc
  refine ⟨?_, ?_, ?_, ?_, ?_⟩
  · cases df with
    | nil => simp [prepareSeries, prepareFrom] at hps
    | cons r0 rs =>
      rw [calculate_well_ip_of_gate r0 rs hgate] at hw
      obtain rfl := Option.some.inj hw
      rfl
  · intro hm
    subst hm
    have h1 : interp1d ((q0.prod_days_cum, f q0) :: (q1.prod_days_cum, f q1) ::
        knotsFor qs f) q0.prod_days_cum = some (f q0) :=
      interp1d_at_first (q0.prod_days_cum, f q0) (q1.prod_days_cum, f q1)
        (knotsFor qs f) hc
    rw [ipVal, hps, hkn, h1]
    rfl
  · intro hm
    subst hm
    have h1 := interp1d_at_last (q0.prod_days_cum, f q0) (q1.prod_days_cum, f q1)
      (knotsFor qs f) hc
    rw [knotsCons_getLast q1 qs f] at h1
    have h2 : interp1d ((q0.prod_days_cum, f q0) :: (q1.prod_days_cum, f q1) ::
        knotsFor qs f) ((q1 :: qs).getLast (List.cons_ne_nil q1 qs)).prod_days_cum =
        some (f ((q1 :: qs).getLast (List.cons_ne_nil q1 qs))) := h1
    rw [ipVal, hps, hkn, h2]
    rfl
  · intro hm
    rw [ipVal, hps, hkn, interp1d_low _ _ _ m hm]
    rfl
  · intro hm
    have hlast : (((q1.prod_days_cum, f q1) :: knotsFor qs f).getLast
        (List.cons_ne_nil (q1.prod_days_cum, f q1) (knotsFor qs f))).1 < m := by
      rw [knotsCons_getLast q1 qs f]
      exact hm
    rw [ipVal, hps, hkn, interp1d_high _ _ _ m hc hlast]
    rfl

/-- Witness for C10 at a well whose final cumulative producing days is
exactly 365: the IP365 milestone lands on the last knot and is computed,
gas IP365 = 220/365 = 44/73 E3m3/d. -/
theorem ip_milestone_boundary_witness :
    ∃ w : WellIP, calculate_well_ip scen365Series = some w ∧
      w.gas_ip_365_e3m3d = some (44 / 73) := by
  have hgate : gatePass (prepareSeries scen365Series) := by
    constructor
    · norm_num [prepareSeries, prepareFrom, scen365Series]
    · intro p hp
      norm_num [prepareSeries, prepareFrom, scen365Series, mkRecord, totalVol] at hp
      rcases hp with rfl | rfl <;> norm_num
  obtain ⟨w, hw⟩ : ∃ w, calculate_well_ip scen365Series = some w :=
    ⟨_, calculate_well_ip_of_gate (mkRecord 202001 100 0 50 5 200 100 0 50 5)
      [mkRecord 202002 120 0 60 6 165 220 0 110 11] hgate⟩
  have hps : prepareSeries scen365Series =
      [{ row := mkRecord 202001 100 0 50 5 200 100 0 50 5,
         prod_days_cum := 200, total_prod_vol := 100055 },
       { row := mkRecord 202002 120 0 60 6 165 220 0 110 11,
         prod_days_cum := 365, total_prod_vol := 120066 }] := by
    norm_num [prepareSeries, prepareFrom, scen365Series, mkRecord, totalVol]
  have hsorted : List.Chain' (· < ·)
      ((prepareSeries scen365Series).map (·.prod_days_cum)) := by
    rw [hps]
    norm_num [List.chain'_cons, List.chain'_singleton]
  obtain ⟨hlink, -, hlast, -, -⟩ :=
    ip_milestone_boundary scen365Series
      { row := mkRecord 202001 100 0 50 5 200 100 0 50 5,
        prod_days_cum := 200, total_prod_vol := 100055 }
      { row := mkRecord 202002 120 0 60 6 165 220 0 110 11,
        prod_days_cum := 365, total_prod_vol := 120066 }
      [] hps hsorted hgate w hw gasCum 365
  refine ⟨w, hw, ?_⟩
  rw [hlink, hlast (by rw [List.getLast_singleton])]
  norm_num [gasCum, List.getLast_singleton, mkRecord]

/-! ## Lemmas about rounding -/

theorem roundHalfEven_intCast (k : ℤ) : roundHalfEven (k : ℚ) = k := by
  simp [roundHalfEven]

theorem round1_idem (q : ℚ) : round1 (round1 q) = round1 q := by
  rw [round1, round1, div_mul_cancel₀ _ (by norm_num : (10 : ℚ) ≠ 0), roundHalfEven_intCast]

theorem jf_of_roundVal (v : DVal) (q : ℚ) (h : toJson (roundVal v) = JVal.jf q) :
    round1 q = q := by
  cases v with
  | vs s => simp [toJson, roundVal] at h
  | vi n => simp [toJson, roundVal] at h
  | vf o =>
    cases o with
    | none => simp [toJson, roundVal] at h
    | some a =>
      simp only [roundVal, toJson, JVal.jf.injEq] at h
      rw [← h, round1_idem]

/-! ## Claim C6: endpoint status outcomes -/

/-- C6: for every request, a `wa` that is not exactly five numeric
characters gives 400 with the WA-format message; otherwise a `units`
value other than metric or field gives 400 with the units message;
otherwise a `wa` absent from the published mapping gives 404; otherwise
the endpoint answers 200 with the serialized body — and these are the
only outcomes. -/
theorem ip_endpoint_statuses (wells : List (String × WellIP)) (wa units : String) :
    (¬(wa.length = 5 ∧ wa.data.all Char.isDigit) →
      ipEndpoint wells wa units = ApiResult.badRequest ErrDetail.waFormat) ∧
    ((wa.length = 5 ∧ wa.data.all Char.isDigit) →
      units ≠ "metric" → units ≠ "field" →
      ipEndpoint wells wa units = ApiResult.badRequest ErrDetail.unitsChoice) ∧
    ((wa.length = 5 ∧ wa.data.all Char.isDigit) →
      (units = "metric" ∨ units = "field") →
      List.lookup wa wells = none → ipEndpoint wells wa units = ApiResult.notFound) ∧
    ((wa.length = 5 ∧ wa.data.all Char.isDigit) →
      (units = "metric" ∨ units = "field") →
      ∀ w : WellIP, List.lookup wa wells = some w →
        ipEndpoint wells wa units =
          ApiResult.ok ((wellip_to_dict w units).map fun kv => (kv.1, toJson kv.2))) := by
  refine ⟨?_, ?_, ?_, ?_⟩
  · intro h
    rw [ipEndpoint, if_pos (not_and_or.mp h)]
  · intro h hm hf
    rw [ipEndpoint, if_neg ?_, if_pos ⟨hm, hf⟩]
    rintro (hc | hc)
    · exact hc h.1
    · exact hc h.2
  · intro h hu hl
    rw [ipEndpoint, if_neg ?_, if_neg ?_]
    · rw [hl]
    · rintro ⟨hm, hf⟩
      rcases hu with h' | h'
      · exact hm h'
      · exact hf h'
    · rintro (hc | hc)
      · exact hc h.1
      · exact hc h.2
  · intro h hu w hw
    rw [ipEndpoint, if_neg ?_, if_neg ?_]
    · rw [hw]
    · rintro ⟨hm, hf⟩
      rcases hu with h' | h'
      · exact hm h'
      · exact hf h'
    · rintro (hc | hc)
      · exact hc h.1
      · exact hc h.2

/-- Witness for C6: a malformed WA gives the WA message, bad units the
units message, an unknown WA 404, a known WA 200. -/
theorem ip_endpoint_statuses_witness :
    ipEndpoint wellsExample "abc" "metric" = ApiResult.badRequest ErrDetail.waFormat ∧
    ipEndpoint wellsExample "00001" "bogus" = ApiResult.badRequest ErrDetail.unitsChoice ∧
    ipEndpoint wellsExample "99999" "metric" = ApiResult.notFound ∧
    ipEndpoint wellsExample "00001" "metric" =
      ApiResult.ok ((wellip_to_dict wExample "metric").map fun kv => (kv.1, toJson kv.2)) := by
  refine ⟨?_, ?_, ?_, ?_⟩
  · exact (ip_endpoint_statuses wellsExample "abc" "metric").1 (by decide)
  · exact (ip_endpoint_statuses wellsExample "00001" "bogus").2.1 (by decide)
      (by decide) (by decide)
  · exact (ip_endpoint_statuses wellsExample "99999" "metric").2.2.1 (by decide)
      (Or.inl rfl) (by decide)
  · exact (ip_endpoint_statuses wellsExample "00001" "metric").2.2.2 (by decide)
      (Or.inl rfl) wExample rfl

theorem toJson_roundVal_vf (o : Option ℚ) :
    toJson (roundVal (DVal.vf o)) = o.elim JVal.jnull fun q => JVal.jf (round1 q) := by
  cases o <;> rfl

/-! ## Claim C7: shape of a successful response body -/

/-- C7: every successful response body carries exactly the declared keys
of its unit system in order (identity, four cumulatives, cumulative
producing days and all sixteen IP fields — no key omitted), every
float-valued entry is rounded to one decimal place, and each of the
sixteen IP entries is JSON null precisely when the underlying IP value is
not available, otherwise the rounded float — never a NaN token, which the
serialization type cannot even express. -/
theorem ip_endpoint_success_body (wells : List (String × WellIP)) (wa units : String)
    (w : WellIP)
    (hwa : wa.length = 5 ∧ wa.data.all Char.isDigit)
    (hu : units = "metric" ∨ units = "field")
    (hl : List.lookup wa wells = some w) :
    ∃ d : List (String × JVal), ipEndpoint wells wa units = ApiResult.ok d ∧
      d.map Prod.fst = (if units = "metric" then metricKeys else fieldKeys) ∧
      (∀ kv ∈ d, ∀ q : ℚ, kv.2 = JVal.jf q → round1 q = q) ∧
      (∀ (k : String) (g : WellIP → Option ℚ), (k, g) ∈ ipFields units →
        List.lookup k d = some ((g w).elim JVal.jnull fun q => JVal.jf (round1 q))) := by
  refine ⟨(wellip_to_dict w units).map fun kv => (kv.1, toJson kv.2), ?_, ?_, ?_, ?_⟩
  · rw [ipEndpoint, if_neg ?_, if_neg ?_]
    · rw [hl]
    · rintro ⟨hm, hf⟩
      rcases hu with h' | h'
      · exact hm h'
      · exact hf h'
    · rintro (hc | hc)
      · exact hc hwa.1
      · exact hc hwa.2
  · rcases hu with rfl | rfl
    · rfl
    · rfl
  · intro kv hkv q hq
    obtain ⟨kv1, hkv1, rfl⟩ := List.mem_map.mp hkv
    obtain ⟨kv2, _, rfl⟩ := List.mem_map.mp hkv1
    exact jf_of_roundVal kv2.2 q hq
  · intro k g hkg
    rcases hu with rfl | rfl
    · fin_cases hkg <;> simp [wellip_to_dict, rawDict, List.lookup, toJson_roundVal_vf]
    · fin_cases hkg <;> simp [wellip_to_dict, rawDict, List.lookup, toJson_roundVal_vf]

/-- Witness for C7 at the example mapping: the metric body of well 00001
carries the metric keys, and its gas IP90 entry is JSON null because the
IP value is not available. -/
theorem ip_endpoint_success_body_witness :
    ∃ d : List (String × JVal), ipEndpoint wellsExample "00001" "metric" = ApiResult.ok d ∧
      d.map Prod.fst = metricKeys ∧
      List.lookup "Gas IP 90 (E3m3/d)" d = some JVal.jnull := by
  obtain ⟨d, hok, hkeys, -, hip⟩ :=
    ip_endpoint_success_body wellsExample "00001" "metric" wExample (by decide)
      (Or.inl rfl) rfl
  refine ⟨d, hok, hkeys.trans (by rw [if_pos rfl]), ?_⟩
  have h := hip "Gas IP 90 (E3m3/d)" (fun w => w.gas_ip_90_e3m3d)
    (by simp [ipFields])
  rw [h]
  rfl

/-! ## Claim C5: unit round-trip between metric and field results -/

/-- Counterexample to C5 as stated: for the test well, the metric result
reports gas IP30 as 0.0 (0.04 rounded to one decimal), the field result
reports 1.4 (0.04 times 35.315, rounded); converting the metric result's
rounded field value by the documented factor gives 0.0 again, which
differs from the field result by more than a full unit in the first
decimal place. -/
theorem wellip_to_dict_roundtrip_counterexample :
    List.lookup "Gas IP 30 (E3m3/d)" (wellip_to_dict wExample "metric") =
      some (DVal.vf (some 0)) ∧
    List.lookup "Gas IP 30 (Mcf/d)" (wellip_to_dict wExample "field") =
      some (DVal.vf (some (7 / 5))) ∧
    round1 (0 * MCF_E3M3) ≠ 7 / 5 ∧
    |round1 (0 * MCF_E3M3) - 7 / 5| > 1 := by
  refine ⟨?_, ?_, ?_, ?_⟩
  · simp [wellip_to_dict, rawDict, roundVal, List.lookup, wExample]
    norm_num [round1, roundHalfEven]
  · simp [wellip_to_dict, rawDict, roundVal, List.lookup, wExample]
    norm_num [round1, roundHalfEven, MCF_E3M3]
  · norm_num [round1, roundHalfEven, MCF_E3M3]
  · have h0 : round1 (0 * MCF_E3M3) = 0 := by norm_num [round1, roundHalfEven, MCF_E3M3]
    rw [h0, zero_sub, abs_neg, abs_of_nonneg (by norm_num)]
    norm_num

/-- C5 amended: the field result is obtained from the same unrounded
`WellIP` values as the metric result: every volumetric entry of the field
result equals the corresponding unrounded metric entry scaled by its
documented factor and then rounded to one decimal place — and the
non-volumetric entries (WA, UWI, the two prod months, cumulative
producing days) are identical between the two results.  The round-trip of
the claim holds for the unrounded metric values, not for the rounded
ones. -/
theorem wellip_to_dict_unit_relation (w : WellIP) :
    (∀ k ∈ idKeys, List.lookup k (wellip_to_dict w "field") =
      List.lookup k (wellip_to_dict w "metric")) ∧
    (∀ (mk fk : String) (c : ℚ), (mk, fk, c) ∈ volPairs →
      List.lookup fk (wellip_to_dict w "field") =
        (List.lookup mk (rawDict w "metric")).map fun v => roundVal (scaleVal c v)) := by
  constructor
  · intro k hk
    fin_cases hk <;> simp [wellip_to_dict, rawDict, List.lookup]
  · intro mk fk c h
    fin_cases h <;>
      simp [wellip_to_dict, rawDict, List.lookup, scaleVal, roundVal, mul_assoc]

/-- Witness for the amended C5 at the test well: identical WA entries, and
the field gas IP30 is the scaled-then-rounded unrounded metric value. -/
theorem wellip_to_dict_unit_relation_witness :
    List.lookup "WA" (wellip_to_dict wExample "field") =
      List.lookup "WA" (wellip_to_dict wExample "metric") ∧
    List.lookup "Gas IP 30 (Mcf/d)" (wellip_to_dict wExample "field") =
      (List.lookup "Gas IP 30 (E3m3/d)" (rawDict wExample "metric")).map
        fun v => roundVal (scaleVal MCF_E3M3 v) := by
  obtain ⟨hid, hvol⟩ := wellip_to_dict_unit_relation wExample
  exact ⟨hid "WA" (by simp [idKeys]),
    hvol "Gas IP 30 (E3m3/d)" "Gas IP 30 (Mcf/d)" MCF_E3M3 (by simp [volPairs])⟩

/-! ## Claim C9: effect on the caller-supplied dataframe -/

theorem lookup_setCol_ne (cols : List (String × List ℚ)) (name : String)
    (vals : List ℚ) (c : String) (h : c ≠ name) :
    List.lookup c (setCol cols name vals) = List.lookup c cols := by
  have hb : (c == name) = false := beq_eq_false_iff_ne.mpr h
  induction cols with
  | nil => simp [setCol, List.lookup, hb]
  | cons kv rest ih =>
    obtain ⟨k, v⟩ := kv
    rw [setCol]
    by_cases hk : k = name
    · rw [if_pos hk]
      subst hk
      simp [List.lookup, hb]
    · rw [if_neg hk]
      simp [List.lookup, ih]

/-- Counterexample to C9 as stated: `calculate_well_ip` does not leave the
caller-supplied dataframe unchanged — after the call on a frame with no
extra columns, the frame differs from the input, with the two derived
columns `Prod_days_cum` and `Total_prod_vol (m3)` added to it. -/
theorem calculate_well_ip_frame_mutates :
    (calculate_well_ip_frame { rows := [scenMonth1], extra := [] }).1 ≠
      ({ rows := [scenMonth1], extra := [] } : WellFrame) ∧
    (calculate_well_ip_frame { rows := [scenMonth1], extra := [] }).1.extra.map
      Prod.fst = ["Prod_days_cum", "Total_prod_vol (m3)"] := by
  constructor
  · intro h
    have h2 := congrArg (fun fr : WellFrame => fr.extra.length) h
    simp [calculate_well_ip_frame, setCol] at h2
  · simp [calculate_well_ip_frame, setCol]

/-- C9 amended: `calculate_well_ip` computes its `WellIP` purely from the
rows of the caller-supplied dataframe and does not add, remove or modify
any row or csv column, but it does write the two derived columns
`Prod_days_cum` and `Total_prod_vol (m3)` onto the caller's dataframe in
place; every other column of the frame is untouched (callers that need
the input unchanged must pass a copy, as `getdata.py` does). -/
theorem calculate_well_ip_frame_spec (fr : WellFrame) :
    (calculate_well_ip_frame fr).2 = calculate_well_ip fr.rows ∧
    (calculate_well_ip_frame fr).1.rows = fr.rows ∧
    ∀ c : String, c ≠ "Prod_days_cum" → c ≠ "Total_prod_vol (m3)" →
      List.lookup c (calculate_well_ip_frame fr).1.extra =
        List.lookup c fr.extra := by
  refine ⟨rfl, rfl, ?_⟩
  intro c h1 h2
  rw [calculate_well_ip_frame]
  rw [lookup_setCol_ne _ _ _ _ h2, lookup_setCol_ne _ _ _ _ h1]

/-- Witness for the amended C9: on a frame carrying an unrelated extra
column, the result and rows are unchanged and the unrelated column
survives untouched. -/
theorem calculate_well_ip_frame_spec_witness :
    (calculate_well_ip_frame { rows := [scenMonth1], extra := [("other", [1])] }).2 =
      calculate_well_ip [scenMonth1] ∧
    (calculate_well_ip_frame { rows := [scenMonth1], extra := [("other", [1])] }).1.rows =
      [scenMonth1] ∧
    List.lookup "other"
        (calculate_well_ip_frame
          { rows := [scenMonth1], extra := [("other", [1])] }).1.extra =
      some [1] := by
  obtain ⟨ha, hb, hc⟩ :=
    calculate_well_ip_frame_spec { rows := [scenMonth1], extra := [("other", [1])] }
  refine ⟨ha, hb, ?_⟩
  rw [hc "other" (by decide) (by decide)]
  rfl
